import Mathlib

set_option maxRecDepth 4096

/-!
Verification development for the deterministic analysis core of the
qualai-community-methodologies repository.

The TypeScript sources are embedded shallowly:

* JavaScript strings are Lean `String`s; `toLowerCase`/`includes` are
  re-implemented over the character list so that every definition is
  kernel-computable.
* JavaScript numbers are embedded as `ℚ` (the numeric values manipulated by
  the code are exact decimal fractions and small integer counts, on which
  IEEE-754 double arithmetic agrees with exact rational arithmetic for the
  operations performed here; divisions `0/0`, i.e. `NaN`, are modelled as
  `Option.none`, and all comparisons against `NaN` are `false` exactly as in
  JavaScript).
* Array lengths and other integer counts are `Nat`.
* The recursive hierarchy walk of `calculateHierarchyDepth`, which need not
  terminate on cyclic input, is embedded with an explicit fuel parameter;
  `none` means the recursion was still running when the fuel ran out, so a
  result that is `none` for every fuel value models divergence.
* `Date` valued metadata fields are omitted: they are never read by any of
  the functions verified here.
-/

/-! ## JavaScript string primitives -/

/-- Embedding of `String.prototype.toLowerCase` restricted to the ASCII
strings that occur in the code: lower-case every character. -/
def jsToLower (s : String) : String := ⟨s.data.map Char.toLower⟩

/-- Helper for `jsIncludes`: does `pat` occur as a contiguous run inside the
character list? -/
def jsIncludesAux (pat : List Char) : List Char → Bool
| [] => pat.isEmpty
| c :: rest => pat.isPrefixOf (c :: rest) || jsIncludesAux pat rest

/-- Embedding of `String.prototype.includes`: `jsIncludes s sub` is `true`
iff `sub` occurs as a substring of `s`. -/
def jsIncludes (s sub : String) : Bool := jsIncludesAux sub.data s.data

/-- JavaScript regular-expression word character `\w`, i.e. `[A-Za-z0-9_]`. -/
def isWordChar (c : Char) : Bool := c.isAlphanum || c == '_'

/-- Helper for `hasGerund`: scan the character list for a word character
immediately followed by the letters `ing`. -/
def hasGerundAux : List Char → Bool
| c1 :: c2 :: c3 :: c4 :: rest =>
    (isWordChar c1 && c2 == 'i' && c3 == 'n' && c4 == 'g')
      || hasGerundAux (c2 :: c3 :: c4 :: rest)
| _ => false

/-- Embedding of the test `/\w+ing/.test(code)` (theory-engine.ts line 200):
the regex matches iff some word character is immediately followed by `ing`. -/
def hasGerund (code : String) : Bool := hasGerundAux code.data

/-- The apostrophe character, kept out of string literals as a single
code point (U+0027). -/
def apos : String := ⟨[Char.ofNat 39]⟩

/-! ## Shared closed enumerations

Both `theory-engine.ts` and `mcp-implementation/src/types/theory.ts` use the
same closed sets for relationship types and strengths. -/

/-- The relationship type union
`causes | influences | triggers | precedes | enables | constrains`. -/
inductive RelationType
| causes | influences | triggers | precedes | enables | constrains
deriving DecidableEq

/-- The strength union `strong | moderate | weak`. -/
inductive Strength
| strong | moderate | weak
deriving DecidableEq

/-- The paradigm union `constructivist | objectivist` of theory-engine.ts. -/
inductive Paradigm
| constructivist | objectivist
deriving DecidableEq

namespace TheoryEngine

/-! ## Embedding of qualai-mcp-implementation/src/analysis/theory-engine.ts -/

/-- The `Theme` shape consumed by theory-engine.ts (imported there from
theme-engine.ts; the fields are exactly the ones theory-engine.ts reads
and the ones its placeholder theme in `identifyCoreCategory` constructs:
`name`, `description`, `supportingCodes`, `prevalence`, `examples`). -/
structure Theme where
  name : String
  description : String
  supportingCodes : List String
  prevalence : ℚ
  examples : List String
deriving DecidableEq

/-- Modelled from the spec: the `Code` shape of coding-engine.ts is not under
src/; theory-engine.ts only passes codes through (its `buildParadigmModel`
never reads them) and `generateConceptMap` reads `name` and `frequency`, the
fields kept here. -/
structure Code where
  name : String
  frequency : ℚ
deriving DecidableEq

/-- The `ParadigmModel` interface (theory-engine.ts lines 22-29). -/
structure ParadigmModel where
  phenomenon : String
  causalConditions : List String
  context : List String
  strategies : List String
  consequences : List String
  interveningConditions : List String
deriving DecidableEq

/-- The `CategoryRelationship` interface (theory-engine.ts lines 31-37);
`from` and `to` are Lean keywords, hence the field names `from_` and `to_`. -/
structure CategoryRelationship where
  from_ : String
  to_ : String
  type : RelationType
  explanation : String
  strength : Strength
deriving DecidableEq

/-- The `GroundedTheory` interface (theory-engine.ts lines 8-20); the
`metadata.createdAt : Date` field is omitted, `metadata.researchQuestion`
is flattened into `researchQuestion`. -/
structure GroundedTheory where
  title : String
  coreCategory : String
  paradigm : Paradigm
  paradigmModel : ParadigmModel
  storyline : String
  theoreticalPropositions : List String
  categoryRelationships : List CategoryRelationship
  researchQuestion : String
deriving DecidableEq

/-- The placeholder theme returned by `identifyCoreCategory` on an empty
theme list (theory-engine.ts lines 92-100). -/
def unknownProcessTheme : Theme :=
  { name := "Unknown Process"
    description := "No themes identified"
    supportingCodes := []
    prevalence := 0
    examples := [] }

/-- Stable insertion of a theme into a list already sorted by decreasing
prevalence: the inserted theme goes in front of the first element whose
prevalence does not exceed it, so earlier input elements stay in front of
later ones with equal prevalence. -/
def insertPrevDesc (t : Theme) : List Theme → List Theme
| [] => [t]
| u :: us => if u.prevalence ≤ t.prevalence then t :: u :: us else u :: insertPrevDesc t us

/-- Embedding of `[...themes].sort((a, b) => b.prevalence - a.prevalence)`
(theory-engine.ts line 103): a stable sort by decreasing prevalence
(JavaScript `Array.prototype.sort` is stable). -/
def sortPrevDesc (themes : List Theme) : List Theme :=
  themes.foldr insertPrevDesc []

/-- Embedding of `identifyCoreCategory` (theory-engine.ts lines 86-106). -/
def identifyCoreCategory (themes : List Theme) : Theme :=
  match themes with
  | [] => unknownProcessTheme
  | _ :: _ => (sortPrevDesc themes).headD unknownProcessTheme

/-- Embedding of `containsGerunds` (theory-engine.ts lines 199-201). -/
def containsGerunds (codes : List String) : Bool :=
  codes.any hasGerund

/-- The five list-valued slots of the paradigm model. -/
inductive Bucket
| causal | contextB | strategiesB | consequencesB | intervening
deriving DecidableEq

/-- The branch of the `if / else if` chain in `buildParadigmModel`
(theory-engine.ts lines 122-186) that a theme falls into. -/
def classifyTheme (theme : Theme) : Bucket :=
  let themeName := jsToLower theme.name
  if jsIncludes themeName "trigger" || jsIncludes themeName "cause"
      || jsIncludes themeName "lead to" || jsIncludes themeName "result from" then
    Bucket.causal
  else if jsIncludes themeName "context" || jsIncludes themeName "environment"
      || jsIncludes themeName "setting" || jsIncludes themeName "background" then
    Bucket.contextB
  else if jsIncludes themeName "strateg" || jsIncludes themeName "action"
      || jsIncludes themeName "approach" || jsIncludes themeName "managing"
      || jsIncludes themeName "coping" || containsGerunds theme.supportingCodes then
    Bucket.strategiesB
  else if jsIncludes themeName "outcome" || jsIncludes themeName "result"
      || jsIncludes themeName "consequence" || jsIncludes themeName "impact"
      || jsIncludes themeName "effect" then
    Bucket.consequencesB
  else if jsIncludes themeName "factor" || jsIncludes themeName "influence"
      || jsIncludes themeName "constraint" || jsIncludes themeName "resource" then
    Bucket.intervening
  else if theme.prevalence > 3/10 then Bucket.strategiesB
  else Bucket.contextB

/-- Prepend a theme name to the bucket list selected by `classifyTheme`. -/
def pushBucket (b : Bucket) (name : String) (m : ParadigmModel) : ParadigmModel :=
  match b with
  | Bucket.causal => { m with causalConditions := name :: m.causalConditions }
  | Bucket.contextB => { m with context := name :: m.context }
  | Bucket.strategiesB => { m with strategies := name :: m.strategies }
  | Bucket.consequencesB => { m with consequences := name :: m.consequences }
  | Bucket.intervening => { m with interveningConditions := name :: m.interveningConditions }

/-- The empty paradigm model constructed at theory-engine.ts lines 112-119. -/
def emptyModel : ParadigmModel :=
  { phenomenon := ""
    causalConditions := []
    context := []
    strategies := []
    consequences := []
    interveningConditions := [] }

/-- The `for (const theme of themes)` loop of `buildParadigmModel`
(theory-engine.ts lines 122-186): each theme's name is appended to exactly
one of the five lists, in input order (prepending while recursing on the
tail preserves the push order of the imperative loop). -/
def classifyLists : List Theme → ParadigmModel
| [] => emptyModel
| t :: ts => pushBucket (classifyTheme t) t.name (classifyLists ts)

/-- Embedding of `buildParadigmModel` (theory-engine.ts lines 111-194).
The `codes` parameter is part of the source signature but never read. -/
def buildParadigmModel (themes : List Theme) (_codes : List Code) : ParadigmModel :=
  let m := classifyLists themes
  match themes with
  | [] => m
  | t :: _ => { m with phenomenon := t.name }

/-- The payload of a non-null `inferRelationship` result
(theory-engine.ts line 237). -/
structure RelInfo where
  type : RelationType
  explanation : String
  strength : Strength
deriving DecidableEq

/-- The shared-code computation of `inferRelationship`
(theory-engine.ts line 242):
`theme1.supportingCodes.filter(c => theme2.supportingCodes.includes(c))`. -/
def sharedCodesOf (theme1 theme2 : Theme) : List String :=
  theme1.supportingCodes.filter (fun c => theme2.supportingCodes.contains c)

/-- Embedding of `inferRelationship` (theory-engine.ts lines 234-278). -/
def inferRelationship (theme1 theme2 : Theme) : Option RelInfo :=
  let name1 := jsToLower theme1.name
  let name2 := jsToLower theme2.name
  let sharedCodes := sharedCodesOf theme1 theme2
  if sharedCodes.length = 0 then none
  else
    let strength := if sharedCodes.length > 2 then Strength.strong
      else if sharedCodes.length > 1 then Strength.moderate
      else Strength.weak
    if jsIncludes name1 "challeng" && jsIncludes name2 "strateg" then
      some { type := RelationType.triggers
             explanation := "Challenges trigger the use of strategies"
             strength := strength }
    else if jsIncludes name1 "strateg" && jsIncludes name2 "outcome" then
      some { type := RelationType.causes
             explanation := "Strategies lead to outcomes"
             strength := strength }
    else if jsIncludes name1 "context" || jsIncludes name1 "factor" then
      some { type := RelationType.influences
             explanation := "Contextual factors influence other processes"
             strength := strength }
    else
      some { type := RelationType.influences
             explanation := "\"" ++ theme1.name ++ "\" influences \"" ++ theme2.name
               ++ "\" through shared underlying processes"
             strength := strength }

/-- Embedding of `mapCategoryRelationships` (theory-engine.ts lines 206-229):
the double loop over index pairs `(i, j)` with `i ≠ j`. -/
def mapCategoryRelationships (themes : List Theme) : List CategoryRelationship :=
  themes.enum.flatMap fun p1 =>
    themes.enum.filterMap fun p2 =>
      if p1.1 = p2.1 then none
      else
        (inferRelationship p1.2 p2.2).map fun rel =>
          { from_ := p1.2.name
            to_ := p2.2.name
            type := rel.type
            explanation := rel.explanation
            strength := rel.strength }

/-- Embedding of `formatList` (theory-engine.ts lines 321-329). -/
def formatList (items : List String) : String :=
  match items with
  | [] => ""
  | [a] => jsToLower a
  | [a, b] => jsToLower a ++ " and " ++ jsToLower b
  | _ =>
    let lastItem := (items.getLast?).getD ""
    let otherItems := items.dropLast
    String.intercalate ", " (otherItems.map jsToLower) ++ ", and " ++ jsToLower lastItem

/-- Embedding of `generateStoryline` (theory-engine.ts lines 283-316). -/
def generateStoryline (coreCategory : Theme) (model : ParadigmModel)
    (themes : List Theme) : String :=
  let s1 := "This grounded theory explains the process of "
    ++ jsToLower coreCategory.name ++ ". "
  let s2 := if model.causalConditions.length > 0 then
      "This process is initiated by " ++ formatList model.causalConditions ++ ". "
    else ""
  let s3 := if model.context.length > 0 then
      "It occurs within the context of " ++ formatList model.context ++ ". "
    else ""
  let s4 := if model.strategies.length > 0 then
      "Participants engage in " ++ formatList model.strategies
        ++ " as responses to the phenomenon. "
    else ""
  let s5 := if model.interveningConditions.length > 0 then
      "These responses are shaped by " ++ formatList model.interveningConditions ++ ". "
    else ""
  let s6 := if model.consequences.length > 0 then
      "This ultimately results in " ++ formatList model.consequences ++ ". "
    else ""
  let s7 := "\n\nThe data reveals " ++ Nat.repr themes.length
    ++ " interconnected themes that together explain how participants navigate "
    ++ jsToLower coreCategory.name ++ ". "
  let s8 := "This theory demonstrates that the process is not linear but involves "
    ++ "continuous interaction between individual actions, contextual factors, and "
    ++ "evolving outcomes."
  s1 ++ s2 ++ s3 ++ s4 ++ s5 ++ s6 ++ s7 ++ s8

/-- The proposition sentence generated for one strong relationship
(theory-engine.ts lines 343-362). -/
def propositionFor (rel : CategoryRelationship) : String :=
  match rel.type with
  | RelationType.causes => rel.from_ ++ " directly causes " ++ rel.to_
  | RelationType.triggers => rel.from_ ++ " triggers the initiation of " ++ rel.to_
  | RelationType.influences => rel.from_ ++ " significantly influences " ++ rel.to_
  | RelationType.enables => rel.from_ ++ " enables or facilitates " ++ rel.to_
  | RelationType.constrains => rel.from_ ++ " constrains or limits " ++ rel.to_
  | RelationType.precedes => rel.from_ ++ " temporally precedes " ++ rel.to_

/-- Embedding of `generatePropositions` (theory-engine.ts lines 334-387).
Every branch of the `switch` there produces a non-empty sentence, so the
`if (proposition)` guard of the source always passes. -/
def generatePropositions (themes : List Theme)
    (relationships : List CategoryRelationship) : List String :=
  let strongRelationships := relationships.filter (fun r => r.strength == Strength.strong)
  let fromRels := (strongRelationships.take 5).map propositionFor
  let prevalentThemes := themes.filter (fun t => t.prevalence > 1/2)
  let fromThemes := (prevalentThemes.take 3).map (fun t =>
    t.name ++ " is a central process that appears across most participant experiences")
  let propositions := fromRels ++ fromThemes
  if propositions.length = 0 then
    ["The identified themes represent interconnected processes in participants"
       ++ apos ++ " experiences",
     "Context and individual factors mediate how these processes manifest",
     "The overall process is dynamic and evolves over time"]
  else propositions

/-- Embedding of `buildGroundedTheory` (theory-engine.ts lines 43-81).
The source is `async` but performs no awaiting, and defaults `paradigm` to
`constructivist`; here the paradigm is passed explicitly. -/
def buildGroundedTheory (codes : List Code) (themes : List Theme)
    (researchQuestion : String) (paradigm : Paradigm) : GroundedTheory :=
  let coreCategory := identifyCoreCategory themes
  let paradigmModel := buildParadigmModel themes codes
  let relationships := mapCategoryRelationships themes
  let storyline := generateStoryline coreCategory paradigmModel themes
  let propositions := generatePropositions themes relationships
  let title := "Theory of " ++ coreCategory.name
  { title := title
    coreCategory := coreCategory.name
    paradigm := paradigm
    paradigmModel := paradigmModel
    storyline := storyline
    theoreticalPropositions := propositions
    categoryRelationships := relationships
    researchQuestion := researchQuestion }

end TheoryEngine

namespace McpTools

/-! ## Embedding of mcp-implementation/src (types, llmPrompts.ts, the
saturation heuristic of extractThemes.ts) and of the refineCodebook tool
file that holds `calculateHierarchyDepth`. -/

/-- The `Quote` interface (types/themes.ts); the optional `participant`
field is modelled as `Option String`. -/
structure Quote where
  id : String
  text : String
  source : String
  participant : Option String
  context : String
  codeLabels : List String
deriving DecidableEq

/-- The `prevalence` triple of the `Theme` interface (types/themes.ts). -/
structure Prevalence where
  participants : Nat
  totalParticipants : Nat
  dataPoints : Nat
deriving DecidableEq

/-- The `Theme` interface (types/themes.ts). The optional `subthemes` list
and the `metadata` block are omitted: no function embedded here reads them. -/
structure Theme where
  id : String
  name : String
  centralConcept : String
  definition : String
  relatedCodes : List String
  supportingQuotes : List Quote
  prevalence : Prevalence
  significance : String
deriving DecidableEq

/-- The `Code` interface (types/codebook.ts); the `metadata` block and the
optional `childCodes`/`parentCode` fields are omitted: the validator reads
only `label`, `definition` and `examples`. -/
structure Code where
  id : String
  label : String
  definition : String
  whenToUse : String
  whenNotToUse : String
  examples : List String
  frequency : Nat
deriving DecidableEq

/-- The `CodeHierarchy` interface (types/codebook.ts): the `relationships`
object maps a parent identifier to its ordered child list; it is embedded
as an association list with the object's unique keys. -/
structure CodeHierarchy where
  rootCodes : List String
  relationships : List (String × List String)
deriving DecidableEq

/-- The `qualityMetrics` block of the `Codebook` interface
(types/codebook.ts). -/
structure QualityMetrics where
  totalCodes : Nat
  hierarchyDepth : Nat
  averageCodeFrequency : ℚ
  redundancyScore : ℚ
deriving DecidableEq

/-- The `Codebook` interface (types/codebook.ts), restricted to the fields
read by `validateCodebook`: `codes` and `qualityMetrics` (the string
fields, `mergedCodes` and `metadata` are never read by the validator). -/
structure Codebook where
  codes : List Code
  codeHierarchy : CodeHierarchy
  qualityMetrics : QualityMetrics
deriving DecidableEq

/-- The object lookup `hierarchy.relationships[codeId] || []` used by
`calculateHierarchyDepth`. -/
def childrenOf (hierarchy : CodeHierarchy) (codeId : String) : List String :=
  ((hierarchy.relationships.find? (fun p => p.1 == codeId)).map Prod.snd).getD []

/-- Left-to-right traversal of a list under an option-valued function,
collecting the results; `none` as soon as one element yields `none` (used
to thread fuel exhaustion through `children.map(...)`). -/
def traverseOption (f : α → Option β) : List α → Option (List β)
| [] => some []
| x :: xs =>
  match f x with
  | none => none
  | some y => (traverseOption f xs).map (fun ys => y :: ys)

/-- Embedding of the inner `getDepth` recursion of `calculateHierarchyDepth`
(refineCodebook tool file, lines 678-687). The source recursion has no
cycle protection and need not terminate, so it is given an explicit fuel
parameter: `none` means the fuel was exhausted before the recursion
finished, and a run that is `none` for every fuel diverges. `Math.max` over
the (always non-empty) child depth list is folded with identity `0`. -/
def getDepth (hierarchy : CodeHierarchy) : Nat → String → Nat → Option Nat
| 0, _, _ => none
| fuel + 1, codeId, currentDepth =>
  let children := childrenOf hierarchy codeId
  if children.length = 0 then some currentDepth
  else
    (traverseOption (fun childId => getDepth hierarchy fuel childId (currentDepth + 1))
        children).map
      (fun childDepths => childDepths.foldl Nat.max 0)

/-- The `for (const rootCode of hierarchy.rootCodes)` loop of
`calculateHierarchyDepth`, accumulating
`maxDepth = Math.max(maxDepth, getDepth(rootCode, 1))`. -/
def rootsLoop (g : String → Option Nat) : List String → Nat → Option Nat
| [], maxDepth => some maxDepth
| rootCode :: rest, maxDepth =>
  match g rootCode with
  | none => none
  | some depth => rootsLoop g rest (Nat.max maxDepth depth)

/-- Embedding of `calculateHierarchyDepth` (refineCodebook tool file,
lines 675-694): loop over the roots starting from `maxDepth = 0`. -/
def calculateHierarchyDepth (fuel : Nat) (hierarchy : CodeHierarchy) : Option Nat :=
  rootsLoop (fun rootCode => getDepth hierarchy fuel rootCode 1) hierarchy.rootCodes 0

/-- Modelled from the spec (section 4.1), for comparison with
`calculateHierarchyDepth`: "For each root identifier, perform depth-first
traversal following the parent-children map, starting at depth 1; ...
Output: the maximum depth across all roots (0 if there are no roots)."
The per-root traversals are collected with `mapM` and their maximum taken
at the end, rather than accumulated in a running loop maximum. -/
def specHierarchyDepth (fuel : Nat) (hierarchy : CodeHierarchy) : Option Nat :=
  (traverseOption (fun rootCode => getDepth hierarchy fuel rootCode 1)
      hierarchy.rootCodes).map
    (fun depths => depths.foldr Nat.max 0)

/-- Division of two counts as JavaScript performs it: `none` models the
`NaN` produced by `0/0` (and the infinite `a/0`); otherwise the exact
rational quotient. -/
def ratioN (a b : Nat) : Option ℚ :=
  if b = 0 then none else some ((a : ℚ) / (b : ℚ))

/-- Division of a rational by a count, `none` modelling division by zero. -/
def ratioQ (a : ℚ) (b : Nat) : Option ℚ :=
  if b = 0 then none else some (a / (b : ℚ))

/-- JavaScript comparison `x >= c` where `x` may be `NaN` (`none`):
any comparison against `NaN` is `false`. -/
def oGe (x : Option ℚ) (c : ℚ) : Bool :=
  match x with
  | some q => decide (c ≤ q)
  | none => false

/-- JavaScript comparison `x < c` where `x` may be `NaN` (`none`). -/
def oLt (x : Option ℚ) (c : ℚ) : Bool :=
  match x with
  | some q => decide (q < c)
  | none => false

/-- The five criterion scores of `validateCodebook` (llmPrompts.ts).
`none` models a `NaN` score. -/
structure CodebookScores where
  clarity : Option ℚ
  distinctiveness : Option ℚ
  completeness : Option ℚ
  hierarchy : Option ℚ
  examples : Option ℚ
deriving DecidableEq

/-- The `QualityAssessment` record returned by `validateCodebook`
(llmPrompts.ts lines 322-330), with the criterion-score map spelled out as
the five fixed keys the function writes. -/
structure CodebookAssessment where
  overallQuality : Option ℚ
  criteriaScores : CodebookScores
  strengths : List String
  weaknesses : List String
  recommendations : List String
  passesQualityThreshold : Bool
deriving DecidableEq

/-- Embedding of `validateCodebook` (llmPrompts.ts lines 334-401). The
unused optional `methodology` parameter is dropped. Definition and example
checks combine JavaScript truthiness with a length test; a string of length
over 10 (or a list of positive length) is automatically truthy, so only the
length test remains. -/
def validateCodebook (codebook : Codebook) : CodebookAssessment :=
  let codesWithDefinitions := codebook.codes.filter (fun c => 10 < c.definition.length)
  let clarity := ratioN codesWithDefinitions.length codebook.codes.length
  let uniqueLabels := (codebook.codes.map (fun c => jsToLower c.label)).dedup
  let distinctiveness := ratioN uniqueLabels.length codebook.codes.length
  let codeCount := codebook.codes.length
  let completeness : Option ℚ := some
    (if codeCount < 5 then 3/10
     else if codeCount < 10 then 6/10
     else if codeCount ≤ 50 then 1
     else if codeCount ≤ 100 then 8/10
     else 5/10)
  let hierarchyDepth := codebook.qualityMetrics.hierarchyDepth
  let hierarchy : Option ℚ := some
    (if hierarchyDepth = 0 then 5/10
     else if hierarchyDepth ≤ 3 then 1
     else 6/10)
  let codesWithExamples := codebook.codes.filter (fun c => 0 < c.examples.length)
  let examples := ratioN codesWithExamples.length codebook.codes.length
  let overallQuality : Option ℚ := do
    let a ← clarity
    let b ← distinctiveness
    let c ← completeness
    let d ← hierarchy
    let e ← examples
    pure ((a + b + c + d + e) / 5)
  let strengths :=
    (if oGe clarity (9/10) then ["Codes are clearly defined"] else [])
    ++ (if oGe distinctiveness (95/100) then ["Codes are distinctive and non-overlapping"] else [])
    ++ (if oGe completeness (9/10) then ["Appropriate number of codes for analysis"] else [])
    ++ (if oGe examples (8/10) then ["Codes well-supported with examples"] else [])
  let weaknesses :=
    (if !oGe clarity (9/10) && oLt clarity (7/10) then ["Some codes lack clear definitions"] else [])
    ++ (if !oGe distinctiveness (95/100) && oLt distinctiveness (9/10) then
        ["Some code labels may be duplicates or very similar"] else [])
    ++ (if !oGe examples (8/10) then ["Many codes lack supporting examples"] else [])
  let recommendations :=
    (if !oGe clarity (9/10) && oLt clarity (7/10) then
      ["Add clear definitions for all codes, including when to use and when not to use"] else [])
    ++ (if !oGe distinctiveness (95/100) && oLt distinctiveness (9/10) then
        ["Review codes for duplicates and merge similar codes"] else [])
    ++ (if !oGe completeness (9/10) && oLt completeness (7/10) then
        (if codeCount < 10 then ["Consider if you need more codes to capture data richness"]
         else ["Consider consolidating codes - codebook may be too large"]) else [])
    ++ (if !oGe examples (8/10) then
        ["Add data examples for each code to ground them in evidence"] else [])
  { overallQuality := overallQuality
    criteriaScores :=
      { clarity := clarity
        distinctiveness := distinctiveness
        completeness := completeness
        hierarchy := hierarchy
        examples := examples }
    strengths := strengths
    weaknesses := weaknesses
    recommendations := recommendations
    passesQualityThreshold := oGe overallQuality (7/10) }

/-- The shared-code count of one unordered theme pair in
`calculateThemeOverlap` (llmPrompts.ts lines 579-581): sets collapse
duplicates, so distinct identifiers of the first theme present among the
second theme's identifiers are counted. -/
def overlapCount (t u : Theme) : Nat :=
  (t.relatedCodes.dedup.filter (fun c => u.relatedCodes.contains c)).length

/-- The overlap counts of all unordered theme pairs `(i, j)` with `i < j`,
in the double-loop order of `calculateThemeOverlap`. -/
def pairOverlaps : List Theme → List Nat
| [] => []
| t :: ts => ts.map (overlapCount t) ++ pairOverlaps ts

/-- Embedding of `calculateThemeOverlap` (llmPrompts.ts lines 571-588):
the mean pairwise shared-code count, `0` for fewer than two themes. The
comparison count is positive whenever the list has two or more themes, so
the division is exact. -/
def calculateThemeOverlap (themes : List Theme) : ℚ :=
  if themes.length < 2 then 0
  else
    let overlaps := pairOverlaps themes
    (overlaps.foldl (fun acc o => acc + (o : ℚ)) 0) / (overlaps.length : ℚ)

/-- The six criterion scores of `validateThemes` (llmPrompts.ts). `none`
models a `NaN` score. -/
structure ThemeScores where
  coherence : Option ℚ
  distinctiveness : Option ℚ
  dataSupport : Option ℚ
  relevance : Option ℚ
  prevalence : Option ℚ
  coverage : Option ℚ
deriving DecidableEq

/-- The `QualityAssessment` record returned by `validateThemes`, with the
criterion-score map spelled out as the six fixed keys the function writes. -/
structure ThemeAssessment where
  overallQuality : Option ℚ
  criteriaScores : ThemeScores
  strengths : List String
  weaknesses : List String
  recommendations : List String
  passesQualityThreshold : Bool
deriving DecidableEq

/-- Embedding of `validateThemes` (llmPrompts.ts lines 406-488). -/
def validateThemes (themes : List Theme) (totalDataPoints : Nat) : ThemeAssessment :=
  let themesWithConcepts := themes.filter (fun t => 10 < t.centralConcept.length)
  let coherence := ratioN themesWithConcepts.length themes.length
  let avgSharedCodes := calculateThemeOverlap themes
  let distinctiveness : Option ℚ := some (max 0 (1 - avgSharedCodes / 3))
  let quoteSum := themes.foldl (fun sum t => sum + t.supportingQuotes.length) 0
  let dataSupport := (ratioN quoteSum themes.length).map (fun avg => min 1 (avg / 5))
  let themesWithSignificance := themes.filter (fun t => 10 < t.significance.length)
  let relevance := ratioN themesWithSignificance.length themes.length
  let prevalenceSum : ℚ := themes.foldl
    (fun sum t =>
      if 0 < t.prevalence.totalParticipants then
        sum + (t.prevalence.participants : ℚ) / (t.prevalence.totalParticipants : ℚ)
      else sum) 0
  let prevalence := ratioQ prevalenceSum themes.length
  let totalDataPointsCovered := themes.foldl (fun sum t => sum + t.prevalence.dataPoints) 0
  -- For `totalDataPoints = 0` with a positive covered count JavaScript would
  -- yield `min(1, Infinity) = 1`; this embedding returns `none` there. No
  -- theorem below relies on that corner (the claims use it only at zero
  -- themes, where the division is `0/0`, i.e. NaN, in JavaScript too).
  let coverage := (ratioN totalDataPointsCovered totalDataPoints).map (fun q => min 1 q)
  let overallQuality : Option ℚ := do
    let a ← coherence
    let b ← distinctiveness
    let c ← dataSupport
    let d ← relevance
    let e ← prevalence
    let f ← coverage
    pure ((a + b + c + d + e + f) / 6)
  let strengths :=
    (if oGe coherence (9/10) then ["Themes have clear central organizing concepts"] else [])
    ++ (if oGe distinctiveness (8/10) then ["Themes are clearly distinct from each other"] else [])
    ++ (if oGe dataSupport (8/10) then ["Themes well-supported with data extracts"] else [])
    ++ (if oGe prevalence (1/2) then ["Themes appear across multiple participants"] else [])
    ++ (if !(themes.length < 3) && !(8 < themes.length) then
        ["Appropriate number of themes (" ++ Nat.repr themes.length ++ ")"] else [])
  let weaknesses :=
    (if !oGe coherence (9/10) then ["Some themes lack clear central concepts"] else [])
    ++ (if !oGe distinctiveness (8/10) then ["Themes may have too much overlap"] else [])
    ++ (if !oGe dataSupport (8/10) then ["Themes need more supporting quotes"] else [])
    ++ (if !oGe prevalence (1/2) then
        ["Some themes may be too narrow, appearing in few participants"] else [])
    ++ (if themes.length < 3 then ["Very few themes - may be missing patterns"]
        else if 8 < themes.length then ["Many themes - may lack coherence"] else [])
  let recommendations :=
    (if !oGe coherence (9/10) then ["Define the central organizing concept for each theme"] else [])
    ++ (if !oGe distinctiveness (8/10) then
        ["Review themes for overlap and ensure each captures a distinct pattern"] else [])
    ++ (if !oGe dataSupport (8/10) then
        ["Add more supporting quotes for each theme (aim for 5+ per theme)"] else [])
    ++ (if !oGe prevalence (1/2) then
        ["Consider if narrow themes should be combined or presented as subthemes"] else [])
    ++ (if themes.length < 3 then ["Consider if data has been analyzed in sufficient depth"]
        else if 8 < themes.length then
          ["Consider grouping themes or creating theme hierarchies"] else [])
  { overallQuality := overallQuality
    criteriaScores :=
      { coherence := coherence
        distinctiveness := distinctiveness
        dataSupport := dataSupport
        relevance := relevance
        prevalence := prevalence
        coverage := coverage }
    strengths := strengths
    weaknesses := weaknesses
    recommendations := recommendations
    passesQualityThreshold := oGe overallQuality (7/10) }

/-- Embedding of the saturation heuristic computed inside `extractThemes`
(extractThemes.ts lines 176-178), as a function of the theme list and of
`rawData.length` (which is also the `totalParticipants` stored in every
theme's prevalence triple at line 145). `Math.floor(rawData.length * 0.3)`
is embedded as `3 * n / 10` in `Nat`: for every array length `n` the
IEEE-754 double product `n * 0.3` rounds to a value with the same floor as
the exact product `3n/10`. -/
def saturationHeuristic (themes : List Theme) (rawDataLength : Nat) : Bool :=
  decide (3 ≤ themes.length)
    && themes.all (fun t => 3 ≤ t.supportingQuotes.length)
    && themes.all (fun t => min 3 (3 * rawDataLength / 10) ≤ t.prevalence.participants)

end McpTools

namespace McpTools

/-- The `ParadigmModel` interface of types/theory.ts (identical in shape to
the theory-engine one, but belonging to the mcp-implementation data model). -/
structure ParadigmModel where
  phenomenon : String
  causalConditions : List String
  context : List String
  strategies : List String
  consequences : List String
  interveningConditions : List String
deriving DecidableEq

/-- The `CategoryRelationship` interface of types/theory.ts (the
mcp-implementation variant adds an `evidence` list); `from` and `to` are
Lean keywords, hence `from_` and `to_`. -/
structure CategoryRelationship where
  from_ : String
  to_ : String
  type : RelationType
  explanation : String
  evidence : List String
  strength : Strength
deriving DecidableEq

/-- The `TheoreticalIntegration` interface of types/theory.ts. -/
structure TheoreticalIntegration where
  linkedTheories : List String
  contribution : String
  novelty : String
  practicalImplications : List String
  futureResearch : List String
deriving DecidableEq

/-- The `SaturationEvidence` interface of types/theory.ts. -/
structure SaturationEvidence where
  categoriesSaturated : Bool
  negativeCasesExamined : Nat
  dataSupport : String
  saturatedCategories : List String
  unsaturatedCategories : List String
deriving DecidableEq

/-- The `GroundedTheory` interface of types/theory.ts, restricted to the
fields `validateGroundedTheory` reads (`title`, `coreCategory`, `paradigm`
and the `metadata` block are never read by the validator). -/
structure GroundedTheory where
  paradigmModel : ParadigmModel
  storyline : String
  theoreticalPropositions : List String
  categoryRelationships : List CategoryRelationship
  theoreticalIntegration : TheoreticalIntegration
  saturationEvidence : SaturationEvidence
deriving DecidableEq

/-- The four criterion scores of `validateGroundedTheory`; they are sums of
rational indicator contributions and never `NaN`. -/
structure TheoryScores where
  credibility : ℚ
  originality : ℚ
  resonance : ℚ
  usefulness : ℚ
deriving DecidableEq

/-- The `QualityAssessment` record returned by `validateGroundedTheory`,
with the criterion-score map spelled out as the four fixed keys the
function writes. -/
structure TheoryAssessment where
  overallQuality : ℚ
  criteriaScores : TheoryScores
  strengths : List String
  weaknesses : List String
  recommendations : List String
  passesQualityThreshold : Bool
deriving DecidableEq

/-- Embedding of `validateGroundedTheory` (llmPrompts.ts lines 491-566).
Each score starts at `0` and is incremented by a sequence of guarded
additions, mirrored here as nested lets. The novelty and contribution
checks combine truthiness with a length test; length over 20 subsumes
truthiness. -/
def validateGroundedTheory (theory : GroundedTheory) : TheoryAssessment :=
  let credibility : ℚ := 0
  let credibility := if 0 < theory.paradigmModel.causalConditions.length then
    credibility + 2/10 else credibility
  let credibility := if 0 < theory.paradigmModel.strategies.length then
    credibility + 2/10 else credibility
  let credibility := if 3 ≤ theory.categoryRelationships.length then
    credibility + 3/10 else credibility
  let credibility := if theory.saturationEvidence.categoriesSaturated then
    credibility + 3/10 else credibility
  let originality : ℚ := 0
  let originality := if 20 < theory.theoreticalIntegration.novelty.length then
    originality + 1/2 else originality
  let originality := if 3 ≤ theory.theoreticalPropositions.length then
    originality + 1/2 else originality
  let resonance : ℚ := 0
  let resonance := if 100 < theory.storyline.length then resonance + 3/10 else resonance
  let resonance := if 0 < theory.paradigmModel.context.length then
    resonance + 2/10 else resonance
  let resonance := if 0 < theory.paradigmModel.interveningConditions.length then
    resonance + 2/10 else resonance
  let resonance := if theory.categoryRelationships.any (fun r => r.strength == Strength.strong) then
    resonance + 3/10 else resonance
  let usefulness : ℚ := 0
  let usefulness := if 20 < theory.theoreticalIntegration.contribution.length then
    usefulness + 4/10 else usefulness
  let usefulness := if 0 < theory.theoreticalIntegration.practicalImplications.length then
    usefulness + 3/10 else usefulness
  let usefulness := if 0 < theory.theoreticalIntegration.futureResearch.length then
    usefulness + 3/10 else usefulness
  let overallQuality := (credibility + originality + resonance + usefulness) / 4
  let strengths :=
    (if (8/10 : ℚ) ≤ credibility then ["Strong evidence of systematic analysis"] else [])
    ++ (if (7/10 : ℚ) ≤ originality then ["Theory offers fresh insights"] else [])
    ++ (if (7/10 : ℚ) ≤ resonance then ["Theory captures richness of experience"] else [])
    ++ (if (7/10 : ℚ) ≤ usefulness then ["Theory has clear practical value"] else [])
  let weaknesses :=
    (if !((8/10 : ℚ) ≤ credibility) then ["Theory needs more systematic development"] else [])
    ++ (if !((7/10 : ℚ) ≤ originality) then ["Theory may lack originality"] else [])
    ++ (if !((7/10 : ℚ) ≤ resonance) then
        ["Theory may not fully capture participant experiences"] else [])
    ++ (if !((7/10 : ℚ) ≤ usefulness) then ["Practical implications need development"] else [])
    ++ (if !theory.saturationEvidence.categoriesSaturated then
        ["Theoretical saturation not achieved"] else [])
  let recommendations :=
    (if !((8/10 : ℚ) ≤ credibility) then
      ["Ensure all paradigm model elements are developed and relationships are specified"]
     else [])
    ++ (if !((7/10 : ℚ) ≤ originality) then
        ["Develop more theoretical propositions and clarify what is novel about this theory"]
       else [])
    ++ (if !((7/10 : ℚ) ≤ resonance) then
        ["Develop more contextual and conditional factors; strengthen the storyline"] else [])
    ++ (if !((7/10 : ℚ) ≤ usefulness) then
        ["Articulate practical implications and future research directions"] else [])
    ++ (if !theory.saturationEvidence.categoriesSaturated then
        ["Continue analysis or acknowledge saturation limitations"] else [])
  { overallQuality := overallQuality
    criteriaScores :=
      { credibility := credibility
        originality := originality
        resonance := resonance
        usefulness := usefulness }
    strengths := strengths
    weaknesses := weaknesses
    recommendations := recommendations
    passesQualityThreshold := (65/100 : ℚ) ≤ overallQuality }

end McpTools

namespace TheoryEngine

/-- One ordered classification rule of spec section 4.4: a predicate on the
theme and the bucket assigned when it is the first rule that matches. -/
structure ParadigmRule where
  applies : Theme → Bool
  bucket : Bucket

/-- Modelled from the spec (section 4.4, rules 1-5), for comparison with
`classifyTheme`: the ordered keyword groups, each tested against the
lower-cased theme name; rule 3 alternatively accepts a related-code label
matching the gerund pattern (word ending ing). -/
def specParadigmRules : List ParadigmRule :=
  [ { applies := fun t => ["trigger", "cause", "lead to", "result from"].any
        (fun k => jsIncludes (jsToLower t.name) k)
      bucket := Bucket.causal }
  , { applies := fun t => ["context", "environment", "setting", "background"].any
        (fun k => jsIncludes (jsToLower t.name) k)
      bucket := Bucket.contextB }
  , { applies := fun t => ["strateg", "action", "approach", "managing", "coping"].any
        (fun k => jsIncludes (jsToLower t.name) k) || t.supportingCodes.any hasGerund
      bucket := Bucket.strategiesB }
  , { applies := fun t => ["outcome", "result", "consequence", "impact", "effect"].any
        (fun k => jsIncludes (jsToLower t.name) k)
      bucket := Bucket.consequencesB }
  , { applies := fun t => ["factor", "influence", "constraint", "resource"].any
        (fun k => jsIncludes (jsToLower t.name) k)
      bucket := Bucket.intervening } ]

/-- First matching bucket of an ordered rule list. -/
def firstBucket (t : Theme) : List ParadigmRule → Option Bucket
| [] => none
| r :: rs => if r.applies t then some r.bucket else firstBucket t rs

/-- Modelled from the spec (section 4.4): assign the theme to the first
matching bucket of the ordered rules; if none matches, prevalence fraction
above 0.3 sends it to strategies, otherwise to context. -/
def specClassifyTheme (t : Theme) : Bucket :=
  (firstBucket t specParadigmRules).getD
    (if t.prevalence > 3/10 then Bucket.strategiesB else Bucket.contextB)

/-! ## Concrete inputs used by the claim theorems -/

/-- A theme with no classification keyword in its name and the smaller
prevalence, listed first. -/
def tMinor : Theme :=
  { name := "Minor", description := "", supportingCodes := [], prevalence := 0, examples := [] }

/-- A theme with the larger prevalence, listed second. -/
def tMajor : Theme :=
  { name := "Major", description := "", supportingCodes := [], prevalence := 1, examples := [] }

/-- A theme whose name matches causal-condition keywords. -/
def triggerTheme : Theme :=
  { name := "Trigger event", description := "", supportingCodes := [],
    prevalence := 0, examples := [] }

/-- The theme of spec section 8: named Coping with uncertainty. -/
def copingTheme : Theme :=
  { name := "Coping with uncertainty", description := "", supportingCodes := [],
    prevalence := 0, examples := [] }

/-- A theme whose name matches the relationship keyword rules but which
shares no supporting code with `strategyNameTheme`. -/
def challengeNameTheme : Theme :=
  { name := "Challenges at work", description := "", supportingCodes := ["c1"],
    prevalence := 0, examples := [] }

/-- A second keyword-matching theme with disjoint supporting codes. -/
def strategyNameTheme : Theme :=
  { name := "Strategies of adaptation", description := "", supportingCodes := ["c2"],
    prevalence := 0, examples := [] }

/-- Two themes sharing exactly one supporting code. -/
def sharedOneA : Theme :=
  { name := "Alpha", description := "", supportingCodes := ["s1", "a2"],
    prevalence := 0, examples := [] }

/-- Second theme of the one-shared-code pair. -/
def sharedOneB : Theme :=
  { name := "Beta", description := "", supportingCodes := ["s1", "b2"],
    prevalence := 0, examples := [] }

end TheoryEngine

namespace McpTools

/-- The cyclic hierarchy of the C3 failing input: the root A lists itself
as its own child. -/
def cyclicHier : CodeHierarchy :=
  { rootCodes := ["A"], relationships := [("A", ["A"])] }

/-- The example hierarchy of spec section 8: A has children B and C, and B
has child D. -/
def exampleHier : CodeHierarchy :=
  { rootCodes := ["A"], relationships := [("A", ["B", "C"]), ("B", ["D"])] }

/-- A codebook with zero codes (the C4 failing input). -/
def emptyCodebook : Codebook :=
  { codes := []
    codeHierarchy := { rootCodes := [], relationships := [] }
    qualityMetrics :=
      { totalCodes := 0, hierarchyDepth := 0, averageCodeFrequency := 0, redundancyScore := 0 } }

/-- A grounded theory with empty causal conditions, empty strategies,
exactly one category relationship and saturation false (the C9 example). -/
def zeroCredibilityTheory : GroundedTheory :=
  { paradigmModel :=
      { phenomenon := "", causalConditions := [], context := [], strategies := [],
        consequences := [], interveningConditions := [] }
    storyline := ""
    theoreticalPropositions := []
    categoryRelationships :=
      [ { from_ := "A", to_ := "B", type := RelationType.influences,
          explanation := "", evidence := [], strength := Strength.weak } ]
    theoreticalIntegration :=
      { linkedTheories := [], contribution := "", novelty := "",
        practicalImplications := [], futureResearch := [] }
    saturationEvidence :=
      { categoriesSaturated := false, negativeCasesExamined := 0, dataSupport := "",
        saturatedCategories := [], unsaturatedCategories := [] } }

end McpTools

/-! ## Helper lemmas -/

namespace TheoryEngine

/-- The `for` loop of `buildParadigmModel` distributes every theme name into
exactly one of the five lists: their concatenation is a permutation of the
input theme names. -/
theorem classifyLists_perm (themes : List Theme) :
    ((classifyLists themes).causalConditions ++ (classifyLists themes).context
      ++ (classifyLists themes).strategies ++ (classifyLists themes).consequences
      ++ (classifyLists themes).interveningConditions).Perm
      (themes.map Theme.name) := by
  induction themes with
  | nil => simp [classifyLists, emptyModel]
  | cons t ts ih =>
    simp only [classifyLists, List.map_cons]
    rw [List.perm_iff_count]
    intro a
    have ihc := ih.count_eq a
    simp only [List.count_append] at ihc
    cases hb : classifyTheme t <;>
      simp only [pushBucket, List.count_append, List.count_cons] <;>
      omega

/-- The five lists of `buildParadigmModel` coincide with those of its
classification loop (setting `phenomenon` afterwards touches no list). -/
theorem buildParadigmModel_lists (themes : List Theme) (codes : List Code) :
    (buildParadigmModel themes codes).causalConditions = (classifyLists themes).causalConditions
    ∧ (buildParadigmModel themes codes).context = (classifyLists themes).context
    ∧ (buildParadigmModel themes codes).strategies = (classifyLists themes).strategies
    ∧ (buildParadigmModel themes codes).consequences = (classifyLists themes).consequences
    ∧ (buildParadigmModel themes codes).interveningConditions
        = (classifyLists themes).interveningConditions := by
  cases themes <;> exact ⟨rfl, rfl, rfl, rfl, rfl⟩

end TheoryEngine

namespace McpTools

/-- On the self-loop hierarchy the inner recursion of
`calculateHierarchyDepth` exhausts any amount of fuel: the walk from A
never reaches a childless node. -/
theorem getDepth_cyclic (fuel : Nat) : ∀ d : Nat, getDepth cyclicHier fuel "A" d = none := by
  induction fuel with
  | zero => intro d; rfl
  | succ n ih =>
    intro d
    have hc : childrenOf cyclicHier "A" = ["A"] := rfl
    simp [getDepth, hc, traverseOption, ih]

/-- The running-maximum loop over the roots equals collecting all root
depths first and folding the maximum afterwards. -/
theorem rootsLoop_eq_traverse (g : String → Option Nat) :
    ∀ (roots : List String) (acc : Nat),
      rootsLoop g roots acc
        = (traverseOption g roots).map (fun ds => ds.foldl Nat.max acc) := by
  intro roots
  induction roots with
  | nil => intro acc; rfl
  | cons r rs ih =>
    intro acc
    cases hg : g r with
    | none => simp [rootsLoop, traverseOption, hg]
    | some d =>
      simp only [rootsLoop, traverseOption, hg, ih]
      cases hrs : traverseOption g rs <;> simp [hrs, List.foldl_cons]

/-- Folding `Nat.max` from the right over a seed `Nat.max a b` extracts `b`. -/
theorem foldr_max_shift (b : Nat) :
    ∀ (l : List Nat) (a : Nat), l.foldr Nat.max (Nat.max a b) = Nat.max b (l.foldr Nat.max a) := by
  intro l
  induction l with
  | nil => intro a; exact Nat.max_comm a b
  | cons x xs ih =>
    intro a
    simp only [List.foldr_cons, ih]
    exact Nat.max_left_comm x b (xs.foldr Nat.max a)

/-- Left and right folds of `Nat.max` agree. -/
theorem foldl_max_eq_foldr :
    ∀ (l : List Nat) (a : Nat), l.foldl Nat.max a = l.foldr Nat.max a := by
  intro l
  induction l with
  | nil => intro a; rfl
  | cons x xs ih =>
    intro a
    simp only [List.foldl_cons, List.foldr_cons, ih]
    exact foldr_max_shift x xs a

end McpTools

/-! ## Claim theorems -/

/-- Claim C1 (code bug): the paradigm model's `phenomenon` is set to
`themes[0].name`, the first theme in input order, not to the name of the
most prevalent theme. On the input `[tMinor, tMajor]` — where `tMajor` has
strictly greater prevalence and `identifyCoreCategory`, the code's own
most-prevalent-theme selector, picks `tMajor` — `phenomenon` is
nevertheless `"Minor"`. -/
theorem C1_phenomenon_is_first_theme_not_most_prevalent :
    TheoryEngine.tMinor.prevalence < TheoryEngine.tMajor.prevalence
    ∧ (TheoryEngine.identifyCoreCategory [TheoryEngine.tMinor, TheoryEngine.tMajor]).name
        = "Major"
    ∧ (TheoryEngine.buildParadigmModel [TheoryEngine.tMinor, TheoryEngine.tMajor] []).phenomenon
        = "Minor"
    ∧ (TheoryEngine.buildParadigmModel [TheoryEngine.tMinor, TheoryEngine.tMajor] []).phenomenon
        ≠ (TheoryEngine.identifyCoreCategory [TheoryEngine.tMinor, TheoryEngine.tMajor]).name := by
  refine ⟨by decide, by decide, by decide, by decide⟩

/-- Claim C2 counterexample: with the single theme "Trigger event", the
theme's name ends up both in the `phenomenon` slot and in the
`causalConditions` list, so a theme name does appear in more than one of
the six slots. -/
theorem C2_first_theme_occupies_two_slots :
    (TheoryEngine.buildParadigmModel [TheoryEngine.triggerTheme] []).phenomenon
        = "Trigger event"
    ∧ (TheoryEngine.buildParadigmModel [TheoryEngine.triggerTheme] []).causalConditions
        = ["Trigger event"] := by
  exact ⟨by decide, by decide⟩

/-- Claim C2 (amended): every theme is assigned to exactly one of the five
lists — their concatenation is a permutation of the input theme names (no
duplication among the five lists, no omission) — while the `phenomenon`
slot additionally repeats the first input theme's name (empty for an empty
input), so that theme is represented twice across the six slots. -/
theorem C2_each_theme_in_exactly_one_list
    (themes : List TheoryEngine.Theme) (codes : List TheoryEngine.Code) :
    ((TheoryEngine.buildParadigmModel themes codes).causalConditions
      ++ (TheoryEngine.buildParadigmModel themes codes).context
      ++ (TheoryEngine.buildParadigmModel themes codes).strategies
      ++ (TheoryEngine.buildParadigmModel themes codes).consequences
      ++ (TheoryEngine.buildParadigmModel themes codes).interveningConditions).Perm
      (themes.map TheoryEngine.Theme.name)
    ∧ (TheoryEngine.buildParadigmModel themes codes).phenomenon
        = (themes.map TheoryEngine.Theme.name).headD "" := by
  obtain ⟨h1, h2, h3, h4, h5⟩ := TheoryEngine.buildParadigmModel_lists themes codes
  constructor
  · rw [h1, h2, h3, h4, h5]
    exact TheoryEngine.classifyLists_perm themes
  · cases themes <;> rfl

/-- Claim C3 (code bug): `calculateHierarchyDepth` has no visited-set guard
and raises no error on cyclic input; on the self-loop hierarchy
(`rootCodes = ["A"]`, `relationships = A maps to [A]`) the recursion
exhausts every amount of fuel, i.e. it diverges instead of terminating
with a MalformedHierarchy error. -/
theorem C3_hierarchy_depth_diverges_on_self_loop :
    ∀ fuel : Nat, McpTools.calculateHierarchyDepth fuel McpTools.cyclicHier = none := by
  intro fuel
  show McpTools.rootsLoop _ _ _ = none
  simp [McpTools.rootsLoop, McpTools.getDepth_cyclic fuel 1]

/-- Claim C4 counterexample: invoked on a codebook with zero codes, the
codebook validator does not fail — it returns an assessment whose `clarity`
criterion score is the NaN of `0/0` (modelled `none`); likewise the theme
validator on zero themes returns a NaN `coherence` score. -/
theorem C4_empty_input_yields_nan_not_error :
    (McpTools.validateCodebook McpTools.emptyCodebook).criteriaScores.clarity = none
    ∧ (McpTools.validateThemes [] 10).criteriaScores.coherence = none := by
  exact ⟨by decide, by decide⟩

/-- Claim C4 (amended): the quality validators perform no empty-input
check; on zero codes (resp. zero themes) they return a normal assessment
whose ratio-based criterion scores and overall quality are NaN (modelled
`none`) and whose quality threshold test is `false`, instead of failing
fast — empty input is a documented upstream caller precondition. -/
theorem C4_validators_return_nan_without_error :
    (∀ cb : McpTools.Codebook, cb.codes = [] →
      (McpTools.validateCodebook cb).criteriaScores.clarity = none
      ∧ (McpTools.validateCodebook cb).criteriaScores.distinctiveness = none
      ∧ (McpTools.validateCodebook cb).criteriaScores.examples = none
      ∧ (McpTools.validateCodebook cb).overallQuality = none
      ∧ (McpTools.validateCodebook cb).passesQualityThreshold = false)
    ∧ (∀ n : Nat,
      (McpTools.validateThemes [] n).criteriaScores.coherence = none
      ∧ (McpTools.validateThemes [] n).criteriaScores.dataSupport = none
      ∧ (McpTools.validateThemes [] n).criteriaScores.relevance = none
      ∧ (McpTools.validateThemes [] n).criteriaScores.prevalence = none
      ∧ (McpTools.validateThemes [] n).overallQuality = none
      ∧ (McpTools.validateThemes [] n).passesQualityThreshold = false) := by
  constructor
  · intro cb h
    refine ⟨?_, ?_, ?_, ?_, ?_⟩ <;>
      simp [McpTools.validateCodebook, h, McpTools.ratioN, McpTools.oGe]
  · intro n
    exact ⟨rfl, rfl, rfl, rfl, rfl, rfl⟩

/-- Claim C4 witness: the amended theorem instantiated at the concrete
empty codebook. -/
theorem C4_validators_return_nan_without_error_witness :
    McpTools.emptyCodebook.codes = []
    ∧ ((McpTools.validateCodebook McpTools.emptyCodebook).criteriaScores.clarity = none
      ∧ (McpTools.validateCodebook McpTools.emptyCodebook).criteriaScores.distinctiveness = none
      ∧ (McpTools.validateCodebook McpTools.emptyCodebook).criteriaScores.examples = none
      ∧ (McpTools.validateCodebook McpTools.emptyCodebook).overallQuality = none
      ∧ (McpTools.validateCodebook McpTools.emptyCodebook).passesQualityThreshold = false) :=
  ⟨rfl, C4_validators_return_nan_without_error.1 McpTools.emptyCodebook rfl⟩

/-- Claim C5: the paradigm classifier assigns each theme to the first
matching bucket of the fixed rule order (causal keywords, context
keywords, strategy keywords or gerund-matching related code, consequence
keywords, intervening-condition keywords, then the prevalence fallback),
exactly as the spec's ordered rule list prescribes; in particular the
theme named "Coping with uncertainty" lands in `strategies`. -/
theorem C5_classifier_first_matching_rule :
    (∀ t : TheoryEngine.Theme,
      TheoryEngine.classifyTheme t = TheoryEngine.specClassifyTheme t)
    ∧ TheoryEngine.classifyTheme TheoryEngine.copingTheme = TheoryEngine.Bucket.strategiesB
    ∧ (TheoryEngine.buildParadigmModel [TheoryEngine.copingTheme] []).strategies
        = ["Coping with uncertainty"] := by
  refine ⟨?_, by decide, by decide⟩
  intro t
  simp only [TheoryEngine.classifyTheme, TheoryEngine.specClassifyTheme,
    TheoryEngine.firstBucket, TheoryEngine.specParadigmRules, List.any_cons, List.any_nil,
    Bool.or_false, Bool.or_assoc, TheoryEngine.containsGerunds, List.any_eq, or_assoc]
  repeat (first | rfl | (split <;> simp_all [or_assoc]))

/-- Claim C6: a relationship is inferred for an ordered theme pair iff the
two themes share at least one supporting-code identifier (name content
alone never produces one), and its strength is strong for a shared-code
count above 2, moderate for exactly 2 and weak for exactly 1; the
relationship engine emits nothing for the keyword-named pair with disjoint
codes. -/
theorem C6_relationship_requires_shared_codes :
    (∀ t1 t2 : TheoryEngine.Theme,
      (TheoryEngine.inferRelationship t1 t2).map TheoryEngine.RelInfo.strength
        = if (TheoryEngine.sharedCodesOf t1 t2).length = 0 then none
          else some
            (if 2 < (TheoryEngine.sharedCodesOf t1 t2).length then Strength.strong
             else if (TheoryEngine.sharedCodesOf t1 t2).length = 2 then Strength.moderate
             else Strength.weak))
    ∧ (∀ t1 t2 : TheoryEngine.Theme,
        TheoryEngine.inferRelationship t1 t2 = none ↔ TheoryEngine.sharedCodesOf t1 t2 = [])
    ∧ TheoryEngine.mapCategoryRelationships
        [TheoryEngine.challengeNameTheme, TheoryEngine.strategyNameTheme] = [] := by
  refine ⟨?_, ?_, by decide⟩
  · intro t1 t2
    by_cases h0 : (TheoryEngine.sharedCodesOf t1 t2).length = 0
    · simp [TheoryEngine.inferRelationship, h0]
    · have hs :
          (if 2 < (TheoryEngine.sharedCodesOf t1 t2).length then Strength.strong
           else if 1 < (TheoryEngine.sharedCodesOf t1 t2).length then Strength.moderate
           else Strength.weak)
          = (if 2 < (TheoryEngine.sharedCodesOf t1 t2).length then Strength.strong
             else if (TheoryEngine.sharedCodesOf t1 t2).length = 2 then Strength.moderate
             else Strength.weak) := by
        by_cases h2 : 2 < (TheoryEngine.sharedCodesOf t1 t2).length
        · simp [h2]
        · by_cases h3 : (TheoryEngine.sharedCodesOf t1 t2).length = 2
          · simp [h2, h3]
          · have h4 : ¬ 1 < (TheoryEngine.sharedCodesOf t1 t2).length := by omega
            simp [h2, h3, h4]
      simp only [TheoryEngine.inferRelationship, h0, if_false, ite_false]
      rw [← hs]
      repeat (first | rfl | split)
  · intro t1 t2
    constructor
    · intro h
      by_cases h0 : (TheoryEngine.sharedCodesOf t1 t2).length = 0
      · exact List.length_eq_zero.mp h0
      · exfalso
        revert h
        simp only [TheoryEngine.inferRelationship, h0, if_false, ite_false]
        repeat (first | simp | split)
    · intro h
      simp [TheoryEngine.inferRelationship, h]

/-- Claim C7: the saturation boolean of `extractThemes` is true iff the
theme list has at least 3 themes, every theme has at least 3 supporting
quotes, and every theme's participants count reaches
`min 3 (floor(totalParticipants * 0.3))`; in particular it is false for
every 2-theme list regardless of quote counts. -/
theorem C7_saturation_iff_thresholds :
    (∀ (themes : List McpTools.Theme) (n : Nat),
      McpTools.saturationHeuristic themes n = true
        ↔ 3 ≤ themes.length
          ∧ (∀ t ∈ themes, 3 ≤ t.supportingQuotes.length)
          ∧ (∀ t ∈ themes, min 3 (3 * n / 10) ≤ t.prevalence.participants))
    ∧ (∀ (t1 t2 : McpTools.Theme) (n : Nat), McpTools.saturationHeuristic [t1, t2] n = false) := by
  constructor
  · intro themes n
    simp [McpTools.saturationHeuristic, List.all_eq_true, and_assoc]
  · intro t1 t2 n
    rfl

/-- Claim C8: `calculateHierarchyDepth` agrees, for every hierarchy and
every fuel, with the spec's reference definition (collect each root's
depth-first depth starting at 1, return the maximum, 0 for no roots); it
returns 3 on the example hierarchy A maps to [B, C], B maps to [D] with
root A, and 0 whenever `rootCodes` is empty. -/
theorem C8_hierarchy_depth_matches_spec :
    (∀ (fuel : Nat) (h : McpTools.CodeHierarchy),
      McpTools.calculateHierarchyDepth fuel h = McpTools.specHierarchyDepth fuel h)
    ∧ McpTools.calculateHierarchyDepth 10 McpTools.exampleHier = some 3
    ∧ (∀ (fuel : Nat) (rels : List (String × List String)),
        McpTools.calculateHierarchyDepth fuel
          { rootCodes := [], relationships := rels } = some 0) := by
  refine ⟨?_, by decide, fun fuel rels => rfl⟩
  intro fuel h
  unfold McpTools.calculateHierarchyDepth McpTools.specHierarchyDepth
  rw [McpTools.rootsLoop_eq_traverse]
  cases htr : McpTools.traverseOption (fun r => McpTools.getDepth h fuel r 1) h.rootCodes <;>
    simp [McpTools.foldl_max_eq_foldr]

/-- Claim C9: the theory validator's credibility score is the sum of the
four indicator contributions (0.2 for non-empty causal conditions, 0.2 for
non-empty strategies, 0.3 for at least 3 category relationships, 0.3 for a
true saturation flag); the example theory with none of these scores 0. -/
theorem C9_credibility_indicator_sum :
    (∀ theory : McpTools.GroundedTheory,
      (McpTools.validateGroundedTheory theory).criteriaScores.credibility
        = (if 0 < theory.paradigmModel.causalConditions.length then (2/10 : ℚ) else 0)
          + (if 0 < theory.paradigmModel.strategies.length then (2/10 : ℚ) else 0)
          + (if 3 ≤ theory.categoryRelationships.length then (3/10 : ℚ) else 0)
          + (if theory.saturationEvidence.categoriesSaturated then (3/10 : ℚ) else 0))
    ∧ (McpTools.validateGroundedTheory McpTools.zeroCredibilityTheory).criteriaScores.credibility
        = 0 := by
  refine ⟨?_, by decide⟩
  intro theory
  simp only [McpTools.validateGroundedTheory]
  by_cases h1 : 0 < theory.paradigmModel.causalConditions.length <;>
    by_cases h2 : 0 < theory.paradigmModel.strategies.length <;>
      by_cases h3 : 3 ≤ theory.categoryRelationships.length <;>
        cases hb : theory.saturationEvidence.categoriesSaturated <;>
          simp [h1, h2, h3, hb]

/-- Claim C10: theory construction on an empty theme list does not fail:
the core-category identifier returns the placeholder theme "Unknown
Process" with prevalence 0 and no supporting codes, and a complete
grounded theory titled "Theory of Unknown Process" is produced, with empty
paradigm lists, no relationships, the three fallback propositions and the
assembled storyline. -/
theorem C10_empty_themes_unknown_process :
    TheoryEngine.identifyCoreCategory [] = TheoryEngine.unknownProcessTheme
    ∧ TheoryEngine.unknownProcessTheme.prevalence = 0
    ∧ TheoryEngine.unknownProcessTheme.supportingCodes = []
    ∧ (TheoryEngine.buildGroundedTheory [] [] "RQ" Paradigm.constructivist).title
        = "Theory of Unknown Process"
    ∧ (TheoryEngine.buildGroundedTheory [] [] "RQ" Paradigm.constructivist).coreCategory
        = "Unknown Process"
    ∧ (TheoryEngine.buildGroundedTheory [] [] "RQ" Paradigm.constructivist).paradigmModel
        = TheoryEngine.emptyModel
    ∧ (TheoryEngine.buildGroundedTheory [] [] "RQ" Paradigm.constructivist).categoryRelationships
        = []
    ∧ (TheoryEngine.buildGroundedTheory [] [] "RQ" Paradigm.constructivist).theoreticalPropositions
        = ["The identified themes represent interconnected processes in participants"
             ++ apos ++ " experiences",
           "Context and individual factors mediate how these processes manifest",
           "The overall process is dynamic and evolves over time"]
    ∧ (TheoryEngine.buildGroundedTheory [] [] "RQ" Paradigm.constructivist).storyline
        = "This grounded theory explains the process of unknown process. "
          ++ "\n\nThe data reveals 0 interconnected themes that together explain "
          ++ "how participants navigate unknown process. "
          ++ "This theory demonstrates that the process is not linear but involves "
          ++ "continuous interaction between individual actions, contextual factors, "
          ++ "and evolving outcomes." := by
  refine ⟨by decide, by decide, by decide, by decide, by decide, by decide, by decide,
    by decide, by decide⟩
